import Mathlib

/-!
Verification of the async-tiff TIFF reader against its specification.

This file shallowly embeds the parts of the crate that the checked
properties are about:

* the read-ahead metadata cache (`src/metadata/cache.rs`),
* the IFD-chain walk of the metadata reader (`src/metadata/reader.rs`),
* the `TagValue` conversion methods (`src/tag_value.rs`),
* `TypedArray` / `Array` construction (`src/array.rs`, `src/data_type.rs`),
* the tile decode skeleton (`src/tile.rs`),
* tile addressing and the GeoKeyDirectory key loop (`src/ifd.rs`),
* the JPEG table/tile stitching of `decode_modern_jpeg` (`src/decoder.rs`).

Bytes are modelled as natural numbers, `Bytes` buffers as `List Byte`,
machine integers as `Nat`/`Int` with explicit bounds checks where the code
performs a fallible conversion, and fallible Rust functions as `Except`.
A Rust abort (out-of-bounds indexing, `expect`, a failed assertion) is
modelled by the `Crash` wrapper below, so that "returns an error" and
"crashes" are distinguishable outcomes.
-/

namespace AsyncTiff

/-- A byte value (0..255), carried as a natural number. -/
abbrev Byte := Nat

/-- Outcome of a Rust computation that may abort the process
(index out of bounds, `expect` on `None`, failed assertion) instead of
returning. `crashed` is the abort; `done` is a normal return. -/
inductive Crash (α : Type) where
  | crashed : Crash α
  | done : α → Crash α
deriving DecidableEq

/-! ### The read-ahead metadata cache (`src/metadata/cache.rs`) -/

/-- Model of `SequentialBlockCache` (src/metadata/cache.rs lines 14-23): an
append-only list of buffers that are contiguous from offset 0, plus the
running total length `len`. -/
structure SequentialBlockCache where
  buffers : List (List Byte)
  len : Nat
deriving DecidableEq

/-- Model of `SequentialBlockCache::new`. -/
def SequentialBlockCache.new : SequentialBlockCache := ⟨[], 0⟩

/-- Model of `SequentialBlockCache::contains`: is a range ending at `e` fully inside
the cached prefix? -/
def SequentialBlockCache.contains (c : SequentialBlockCache) (e : Nat) : Bool :=
  decide (e ≤ c.len)

/-- The block-walking loop of `SequentialBlockCache::slice`
(src/metadata/cache.rs lines 43-70): collect the chunks sliced out of
successive blocks for the remaining range `s..e`.  A block that falls
entirely before the range start shifts the remaining range down by its
length; otherwise a chunk of `size = min (e - s) (b.length - s)` bytes is
taken starting at `s`, and the walk breaks as soon as the remaining range
end falls inside the current block (else the start resets to 0 and the end
shifts down). -/
def sliceChunks : List (List Byte) → Nat → Nat → List (List Byte)
  | [], _, _ => []
  | b :: bs, s, e =>
    if b.length ≤ s then
      sliceChunks bs (s - b.length) (e - b.length)
    else if e ≤ b.length then
      [(b.drop s).take (min (e - s) (b.length - s))]
    else
      (b.drop s).take (min (e - s) (b.length - s)) :: sliceChunks bs 0 (e - b.length)

/-- Model of `SequentialBlockCache::slice` (src/metadata/cache.rs lines 40-81).  The
source returns the single collected chunk directly when only one block was
touched and otherwise copies the chunks into one output buffer; at the byte
level both equal the concatenation of the collected chunks. -/
def SequentialBlockCache.slice (c : SequentialBlockCache) (s e : Nat) : List Byte :=
  (sliceChunks c.buffers s e).flatten

/-- Model of `SequentialBlockCache::append_buffer` (src/metadata/cache.rs lines
83-87): add the buffer's length to the running total and push the buffer. -/
def SequentialBlockCache.append_buffer (c : SequentialBlockCache)
    (buffer : List Byte) : SequentialBlockCache :=
  ⟨c.buffers ++ [buffer], c.len + buffer.length⟩

/-- Rust `f64::round`: round half away from zero.  The `f64` arithmetic of
`next_fetch_size` is modelled exactly over `ℚ`; the two agree for every
value these properties exercise (they can only differ once values exceed
2^53, where `f64` loses integer precision). -/
def roundHalfAway (q : ℚ) : ℤ :=
  if 0 ≤ q then ⌊q + 1 / 2⌋ else -⌊-q + 1 / 2⌋

/-- Configuration of `ReadaheadMetadataCache` (src/metadata/cache.rs lines
91-96): the initial fetch size and the growth multiplier.  The wrapped inner
fetcher and the mutex-guarded cache state are passed explicitly to `fetch`
below. -/
structure ReadaheadMetadataCache where
  initial : Nat
  multiplier : ℚ

/-- Default `ReadaheadMetadataCache::new` configuration: 32 KiB initial, 2.0
multiplier (src/metadata/cache.rs lines 100-107). -/
def ReadaheadMetadataCache.new : ReadaheadMetadataCache := ⟨32 * 1024, 2⟩

/-- Model of `ReadaheadMetadataCache::next_fetch_size` (src/metadata/cache.rs lines
126-133).  The `as u64` cast of the rounded `f64` saturates at 0 for
negative values, which is `Int.toNat`. -/
def ReadaheadMetadataCache.next_fetch_size (self : ReadaheadMetadataCache)
    (existing_len : Nat) : Nat :=
  if existing_len = 0 then self.initial
  else (roundHalfAway ((existing_len : ℚ) * self.multiplier)).toNat

/-- One call of `<ReadaheadMetadataCache as MetadataFetch>::fetch`
(src/metadata/cache.rs lines 136-160) on the range `s..e`.  `inner` is the
wrapped `MetadataFetch`.  Returns the result handed to the caller, the
cache state after the call, and the list of ranges issued to the inner
fetcher (empty on a cache hit, exactly one range on a miss).  On an inner
error the `?` operator propagates it before `append_buffer`, so the cache is
left unchanged. -/
def ReadaheadMetadataCache.fetch {ε : Type} (self : ReadaheadMetadataCache)
    (inner : Nat → Nat → Except ε (List Byte)) (cache : SequentialBlockCache)
    (s e : Nat) : Except ε (List Byte) × SequentialBlockCache × List (Nat × Nat) :=
  if cache.contains e then
    (Except.ok (cache.slice s e), cache, [])
  else
    let start_len := cache.len
    let needed := e - start_len
    let fetch_size := max (self.next_fetch_size start_len) needed
    match inner start_len (start_len + fetch_size) with
    | Except.error err => (Except.error err, cache, [(start_len, start_len + fetch_size)])
    | Except.ok bytes =>
      let cache2 := cache.append_buffer bytes
      (Except.ok (cache2.slice s e), cache2, [(start_len, start_len + fetch_size)])

/-- The inner fetcher assumed by the cache properties: it answers a range
request with exactly the file's bytes in that range, clipped at end of file
(this is also what the repository's own `TestFetch` in
src/metadata/cache.rs does), and never fails. -/
def fileFetch (file : List Byte) : Nat → Nat → Except Unit (List Byte) :=
  fun s e => Except.ok ((file.drop s).take (e - s))

/-- The documented invariant of `SequentialBlockCache`: the buffers are
contiguous from offset 0 — their concatenation is a prefix of the file —
and `len` is their total length. -/
def cacheInv (file : List Byte) (c : SequentialBlockCache) : Prop :=
  c.len = c.buffers.flatten.length ∧ c.buffers.flatten = file.take c.len

/-- Run a sequence of `fetch` requests against one cache, threading the
state; returns the final cache state, the concatenation of all ranges
issued to the inner fetcher, and the per-request results. -/
def runRequests {ε : Type} (self : ReadaheadMetadataCache)
    (inner : Nat → Nat → Except ε (List Byte)) :
    SequentialBlockCache → List (Nat × Nat) →
    SequentialBlockCache × List (Nat × Nat) × List (Except ε (List Byte))
  | c, [] => (c, [], [])
  | c, (s, e) :: rs =>
    let R := self.fetch inner c s e
    let rest := runRequests self inner R.2.1 rs
    (rest.1, R.2.2 ++ rest.2.1, R.1 :: rest.2.2)

/-! ### The IFD chain walk of `TiffMetadataReader` (`src/metadata/reader.rs`) -/

/-- Model of `ImageFileDirectoryReader::open` followed by `finish`
(src/metadata/reader.rs lines 136-201), abstracted over the byte-level
parsing of one directory: `parse p` stands for reading the tag count, the
tag table and the raw next-IFD offset word at file offset `p`, returning the
materialized directory together with that raw offset.  The `0 ⇒ None`
conversion of the raw offset (lines 179-184) happens here, as in the
source. -/
def ifd_reader_open {Ifd ε : Type} (parse : Nat → Except ε (Ifd × Nat)) (p : Nat) :
    Except ε (Ifd × Option Nat) :=
  match parse p with
  | Except.error err => Except.error err
  | Except.ok (ifd, raw) => Except.ok (ifd, if raw = 0 then none else some raw)

/-- Model of `TiffMetadataReader::read_next_ifd` (src/metadata/reader.rs lines
95-109).  The reader state is its optional next-IFD offset; `none` in the
first component of the result means there was no IFD left to read. -/
def read_next_ifd {Ifd ε : Type} (parse : Nat → Except ε (Ifd × Nat))
    (st : Option Nat) : Except ε (Option Ifd × Option Nat) :=
  match st with
  | none => Except.ok (none, none)
  | some p =>
    match ifd_reader_open parse p with
    | Except.error err => Except.error err
    | Except.ok (ifd, nxt) => Except.ok (some ifd, nxt)

/-- Model of `TiffMetadataReader::read_all_ifds` (src/metadata/reader.rs lines
112-121): loop `read_next_ifd`, collecting directories, until it returns
`none`.  The source loop has no bound, so the model takes explicit fuel;
`ok none` means the fuel ran out with the walk still going, and `ok (some l)`
means the walk terminated by itself with the directories `l`. -/
def read_all_ifds_fuel {Ifd ε : Type} (parse : Nat → Except ε (Ifd × Nat)) :
    Nat → Option Nat → Except ε (Option (List Ifd))
  | 0, _ => Except.ok none
  | fuel + 1, st =>
    match read_next_ifd parse st with
    | Except.error err => Except.error err
    | Except.ok (none, _) => Except.ok (some [])
    | Except.ok (some ifd, nxt) =>
      match read_all_ifds_fuel parse fuel nxt with
      | Except.error err => Except.error err
      | Except.ok none => Except.ok none
      | Except.ok (some rest) => Except.ok (some (ifd :: rest))

/-- A malformed file whose IFD offset chain never reaches 0: every IFD
parses fine and names offset 100 as the next one, so the chain is a cycle.
With directories abstracted, each parsed IFD is `()`. -/
def cyclicParse : Nat → Except Unit (Unit × Nat) := fun _ => Except.ok ((), 100)

/-- A file whose every IFD has next-IFD offset word 0, so the chain walk
stops after one directory wherever it starts. -/
def stopParse : Nat → Except Unit (Unit × Nat) := fun _ => Except.ok ((), 0)

/-! ### `TagValue` and its integer conversions (`src/tag_value.rs`) -/

/-- An `f32` payload, carried opaquely by its bit pattern: none of the
embedded operations computes with floats. -/
structure F32 where
  bits : Nat
deriving DecidableEq

/-- An `f64` payload, carried opaquely by its bit pattern: none of the
embedded operations computes with floats. -/
structure F64 where
  bits : Nat
deriving DecidableEq

/-- Model of `TagValue` (src/tag_value.rs lines 18-55).  Unsigned payloads are
`Nat`, signed ones `Int`; each is within its type's width when produced by
the parser. -/
inductive TagValue where
  | Byte (v : Nat)
  | Short (v : Nat)
  | SignedByte (v : Int)
  | SignedShort (v : Int)
  | Signed (v : Int)
  | SignedBig (v : Int)
  | Unsigned (v : Nat)
  | UnsignedBig (v : Nat)
  | Float (v : F32)
  | Double (v : F64)
  | List (vs : List TagValue)
  | Rational (n d : Nat)
  | RationalBig (n d : Nat)
  | SRational (n d : Int)
  | SRationalBig (n d : Int)
  | Ascii (s : String)
  | Ifd (v : Nat)
  | IfdBig (v : Nat)

/-- Kinds of `TiffFormatError` produced by the `TagValue` converters
(src/tag_value.rs); the error enum itself lives in src/error.rs which is not
under src/ — its variants are taken from the converters' call sites. -/
inductive TiffFormatError where
  | ByteExpected (v : TagValue)
  | SignedByteExpected (v : TagValue)
  | ShortExpected (v : TagValue)
  | SignedShortExpected (v : TagValue)
  | UnsignedIntegerExpected (v : TagValue)
  | SignedIntegerExpected (v : TagValue)

/-- Value-conversion errors of the `TagValue` converters: a format error for
an incompatible variant, or the error a failed `try_from` integer narrowing
converts into (`From<TryFromIntError>`). -/
inductive TiffError where
  | FormatError (e : TiffFormatError)
  | IntSizeError

/-- Model of `TagValue::into_u8` (src/tag_value.rs lines 59-64). -/
def TagValue.into_u8 : TagValue → Except TiffError Nat
  | TagValue.Byte val => Except.ok val
  | val => Except.error (TiffError.FormatError (TiffFormatError.ByteExpected val))

/-- Model of `TagValue::into_i8` (src/tag_value.rs lines 67-74). -/
def TagValue.into_i8 : TagValue → Except TiffError Int
  | TagValue.SignedByte val => Except.ok val
  | val => Except.error (TiffError.FormatError (TiffFormatError.SignedByteExpected val))

/-- Model of `TagValue::into_u16` (src/tag_value.rs lines 77-85).
`u16::try_from` succeeds exactly for values below 2^16. -/
def TagValue.into_u16 : TagValue → Except TiffError Nat
  | TagValue.Byte val => Except.ok val
  | TagValue.Short val => Except.ok val
  | TagValue.Unsigned val =>
    if val < 2 ^ 16 then Except.ok val else Except.error TiffError.IntSizeError
  | TagValue.UnsignedBig val =>
    if val < 2 ^ 16 then Except.ok val else Except.error TiffError.IntSizeError
  | val => Except.error (TiffError.FormatError (TiffFormatError.ShortExpected val))

/-- Model of `TagValue::into_i16` (src/tag_value.rs lines 88-98).
`i16::try_from` succeeds exactly for values in [-2^15, 2^15). -/
def TagValue.into_i16 : TagValue → Except TiffError Int
  | TagValue.SignedByte val => Except.ok val
  | TagValue.SignedShort val => Except.ok val
  | TagValue.Signed val =>
    if -(2 ^ 15) ≤ val ∧ val < 2 ^ 15 then Except.ok val
    else Except.error TiffError.IntSizeError
  | TagValue.SignedBig val =>
    if -(2 ^ 15) ≤ val ∧ val < 2 ^ 15 then Except.ok val
    else Except.error TiffError.IntSizeError
  | val => Except.error (TiffError.FormatError (TiffFormatError.SignedShortExpected val))

/-- Model of `TagValue::into_u32` (src/tag_value.rs lines 101-113). -/
def TagValue.into_u32 : TagValue → Except TiffError Nat
  | TagValue.Byte val => Except.ok val
  | TagValue.Short val => Except.ok val
  | TagValue.Unsigned val => Except.ok val
  | TagValue.UnsignedBig val =>
    if val < 2 ^ 32 then Except.ok val else Except.error TiffError.IntSizeError
  | TagValue.Ifd val => Except.ok val
  | TagValue.IfdBig val =>
    if val < 2 ^ 32 then Except.ok val else Except.error TiffError.IntSizeError
  | val => Except.error (TiffError.FormatError (TiffFormatError.UnsignedIntegerExpected val))

/-- Model of `TagValue::into_i32` (src/tag_value.rs lines 116-126). -/
def TagValue.into_i32 : TagValue → Except TiffError Int
  | TagValue.SignedByte val => Except.ok val
  | TagValue.SignedShort val => Except.ok val
  | TagValue.Signed val => Except.ok val
  | TagValue.SignedBig val =>
    if -(2 ^ 31) ≤ val ∧ val < 2 ^ 31 then Except.ok val
    else Except.error TiffError.IntSizeError
  | val => Except.error (TiffError.FormatError (TiffFormatError.SignedIntegerExpected val))

/-- Model of `TagValue::into_u64` (src/tag_value.rs lines 129-141). -/
def TagValue.into_u64 : TagValue → Except TiffError Nat
  | TagValue.Byte val => Except.ok val
  | TagValue.Short val => Except.ok val
  | TagValue.Unsigned val => Except.ok val
  | TagValue.UnsignedBig val => Except.ok val
  | TagValue.Ifd val => Except.ok val
  | TagValue.IfdBig val => Except.ok val
  | val => Except.error (TiffError.FormatError (TiffFormatError.UnsignedIntegerExpected val))

/-- Model of `TagValue::into_i64` (src/tag_value.rs lines 144-153). -/
def TagValue.into_i64 : TagValue → Except TiffError Int
  | TagValue.SignedByte val => Except.ok val
  | TagValue.SignedShort val => Except.ok val
  | TagValue.Signed val => Except.ok val
  | TagValue.SignedBig val => Except.ok val
  | val => Except.error (TiffError.FormatError (TiffFormatError.SignedIntegerExpected val))

/-- The numeric value a `TagValue` carries, for the integer-carrying
variants; `none` for floats, rationals, strings and lists.  Used to state
that a successful conversion is numerically lossless. -/
def TagValue.numValue : TagValue → Option Int
  | TagValue.Byte v => some v
  | TagValue.Short v => some v
  | TagValue.Unsigned v => some v
  | TagValue.UnsignedBig v => some v
  | TagValue.Ifd v => some v
  | TagValue.IfdBig v => some v
  | TagValue.SignedByte v => some v
  | TagValue.SignedShort v => some v
  | TagValue.Signed v => some v
  | TagValue.SignedBig v => some v
  | _ => none

/-! ### `DataType`, `TypedArray`, `Array` (`src/data_type.rs`, `src/array.rs`) -/

/-- Model of `SampleFormat` (src/tags.rs lines 253-258): Uint = 1, Int = 2,
Float = 3, Void = 4, plus the unknown escape hatch. -/
inductive SampleFormat where
  | Uint
  | Int
  | Float
  | Void
  | Unknown (v : Nat)
deriving DecidableEq

/-- Model of `DataType` (src/data_type.rs lines 5-28): the supported element
types, including `Bool` for 1-bit mask data. -/
inductive DataType where
  | Bool
  | UInt8
  | UInt16
  | UInt32
  | UInt64
  | Int8
  | Int16
  | Int32
  | Int64
  | Float32
  | Float64
deriving DecidableEq

/-- Model of `DataType::size` (src/data_type.rs lines 42-49). -/
def DataType.size : DataType → Nat
  | DataType.Bool | DataType.UInt8 | DataType.Int8 => 1
  | DataType.UInt16 | DataType.Int16 => 2
  | DataType.UInt32 | DataType.Int32 | DataType.Float32 => 4
  | DataType.UInt64 | DataType.Int64 | DataType.Float64 => 8

/-- Model of `DataType::from_tags` (src/data_type.rs lines 59-90): all samples
must share one format and bit depth, and the pair must be a supported
combination; `(Uint, 1)` is `Bool`. -/
def DataType.from_tags (sample_format : List SampleFormat)
    (bits_per_sample : List Nat) : Option DataType :=
  match sample_format.head?, bits_per_sample.head? with
  | some first_format, some first_bits =>
    if ¬ sample_format.all (fun f => f = first_format) then none
    else if ¬ bits_per_sample.all (fun b => b = first_bits) then none
    else
      match first_format, first_bits with
      | SampleFormat.Uint, 1 => some DataType.Bool
      | SampleFormat.Uint, 8 => some DataType.UInt8
      | SampleFormat.Uint, 16 => some DataType.UInt16
      | SampleFormat.Uint, 32 => some DataType.UInt32
      | SampleFormat.Uint, 64 => some DataType.UInt64
      | SampleFormat.Int, 8 => some DataType.Int8
      | SampleFormat.Int, 16 => some DataType.Int16
      | SampleFormat.Int, 32 => some DataType.Int32
      | SampleFormat.Int, 64 => some DataType.Int64
      | SampleFormat.Float, 32 => some DataType.Float32
      | SampleFormat.Float, 64 => some DataType.Float64
      | _, _ => none
  | _, _ => none

/-- Model of `TypedArray` (src/array.rs lines 77-99).  Note: this enum has
exactly the ten numeric variants of the source; the source file has no
`Bool` variant even though `DataType::Bool` exists and the repository's own
test (src/test/geotiff_test_data/real_data/vantor.rs) matches on
`TypedArray::Bool`. -/
inductive TypedArray where
  | UInt8 (data : List Nat)
  | UInt16 (data : List Nat)
  | UInt32 (data : List Nat)
  | UInt64 (data : List Nat)
  | Int8 (data : List Int)
  | Int16 (data : List Int)
  | Int32 (data : List Int)
  | Int64 (data : List Int)
  | Float32 (data : List F32)
  | Float64 (data : List F64)

/-- Model of Rust `chunks_exact(k)`: the consecutive `k`-byte chunks of `l`,
dropping any trailing remainder shorter than `k`. -/
def chunksExact (k : Nat) (l : List Byte) : List (List Byte) :=
  (List.range (l.length / k)).map (fun i => (l.drop (i * k)).take k)

/-- A little-endian machine word assembled from bytes (`from_ne_bytes` on a
little-endian host, the host endianness the source's fast path assumes). -/
def leWord (bs : List Byte) : Nat :=
  bs.foldr (fun b acc => b + 256 * acc) 0

/-- Reinterpret an unsigned `bits`-wide word as two's-complement signed. -/
def toSigned (bits : Nat) (w : Nat) : Int :=
  if w < 2 ^ (bits - 1) then (w : Int) else (w : Int) - 2 ^ bits

/-- Model of `TypedArray::new` (src/array.rs lines 101-179), at the value
level: the aligned `try_cast_vec` fast path and the `chunks_exact`
fallback produce the same element values (both are the native-endian
reinterpretation of the bytes, the fallback dropping a trailing remainder;
`try_cast_vec` fails whenever the length is not a multiple of the element
size, so only the fallback's behaviour is observable then).  The source
match has NO arm for `DataType::Bool` — the enum gained `Bool` in
src/data_type.rs without src/array.rs being updated, so the snapshot does
not compile as given; `none` marks that missing arm. -/
def TypedArray.new (data : List Byte) (data_type : Option DataType) : Option TypedArray :=
  match data_type with
  | none | some DataType.UInt8 => some (TypedArray.UInt8 data)
  | some DataType.UInt16 => some (TypedArray.UInt16 ((chunksExact 2 data).map leWord))
  | some DataType.UInt32 => some (TypedArray.UInt32 ((chunksExact 4 data).map leWord))
  | some DataType.UInt64 => some (TypedArray.UInt64 ((chunksExact 8 data).map leWord))
  | some DataType.Int8 => some (TypedArray.Int8 (data.map (toSigned 8)))
  | some DataType.Int16 =>
    some (TypedArray.Int16 ((chunksExact 2 data).map (fun c => toSigned 16 (leWord c))))
  | some DataType.Int32 =>
    some (TypedArray.Int32 ((chunksExact 4 data).map (fun c => toSigned 32 (leWord c))))
  | some DataType.Int64 =>
    some (TypedArray.Int64 ((chunksExact 8 data).map (fun c => toSigned 64 (leWord c))))
  | some DataType.Float32 =>
    some (TypedArray.Float32 ((chunksExact 4 data).map (fun c => F32.mk (leWord c))))
  | some DataType.Float64 =>
    some (TypedArray.Float64 ((chunksExact 8 data).map (fun c => F64.mk (leWord c))))
  | some DataType.Bool => none

/-- Model of `TypedArray::len` (src/array.rs lines 182-195). -/
def TypedArray.len : TypedArray → Nat
  | TypedArray.UInt8 data => data.length
  | TypedArray.UInt16 data => data.length
  | TypedArray.UInt32 data => data.length
  | TypedArray.UInt64 data => data.length
  | TypedArray.Int8 data => data.length
  | TypedArray.Int16 data => data.length
  | TypedArray.Int32 data => data.length
  | TypedArray.Int64 data => data.length
  | TypedArray.Float32 data => data.length
  | TypedArray.Float64 data => data.length

/-- Model of `Array` (src/array.rs lines 8-24): a typed buffer, a 3-element
shape, and the optional logical data type. -/
structure Array where
  data : TypedArray
  shape : Nat × Nat × Nat
  data_type : Option DataType

/-- Model of `Array::try_new` (src/array.rs lines 27-45): build the typed
array and reject it when its element count disagrees with
`shape[0] * shape[1] * shape[2]`.  The outer `Option` is `none` only on the
`DataType::Bool` arm missing from `TypedArray::new` (see there). -/
def Array.try_new (data : List Byte) (shape : Nat × Nat × Nat)
    (data_type : Option DataType) : Option (Except String Array) :=
  let expected_len := shape.1 * shape.2.1 * shape.2.2
  match TypedArray.new data data_type with
  | none => none
  | some typed_data =>
    if typed_data.len ≠ expected_len then
      some (Except.error
        "Internal error: incorrect shape or data length passed to Array::try_new")
    else some (Except.ok ⟨typed_data, shape, data_type⟩)

/-! ### The tile decode skeleton (`src/tile.rs`) -/

/-- Model of `Endianness` (src/reader.rs lines 337-341). -/
inductive Endianness where
  | LittleEndian
  | BigEndian
deriving DecidableEq

/-- Model of `PlanarConfiguration` (src/tags.rs lines 221-224). -/
inductive PlanarConfiguration where
  | Chunky
  | Planar
deriving DecidableEq

/-- Model of `Predictor` (src/tags.rs lines 229-239). -/
inductive Predictor where
  | None
  | Horizontal
  | FloatingPoint
deriving DecidableEq

/-- Modelled from the spec: the fields of `predictor_info` that
`Tile::decode` reads (§4.9 of the spec); the predictor module
(src/predictor.rs) is not under src/, only its callers are. -/
structure PredictorInfo where
  bits_per_sample : Nat
  endianness : Endianness

/-- Model of `CompressedBytes` (src/tile.rs lines 12-18). -/
inductive CompressedBytes where
  | Chunky (bytes : List Byte)
  | Planar (bands : List (List Byte))

/-- Model of the fields of `Tile` (src/tile.rs lines 29-46) that `decode`
consumes.  The photometric interpretation, JPEG tables and LERC parameters
are forwarded verbatim to the codec, which is abstracted as a function
argument of `decode`, so they are folded into that function here. -/
structure Tile where
  x : Nat
  y : Nat
  data_type : Option DataType
  samples_per_pixel : Nat
  width : Nat
  height : Nat
  planar_configuration : PlanarConfiguration
  predictor : Predictor
  predictor_info : PredictorInfo
  compressed_bytes : CompressedBytes
  compression_method : Nat

/-- Model of `infer_shape` (src/tile.rs lines 166-176). -/
def infer_shape (planar_configuration : PlanarConfiguration)
    (width height samples_per_pixel : Nat) : Nat × Nat × Nat :=
  match planar_configuration with
  | PlanarConfiguration.Chunky => (height, width, samples_per_pixel)
  | PlanarConfiguration.Planar => (samples_per_pixel, height, width)

/-- Decode each planar band and concatenate the results, failing on the
first band that fails (the loop of src/tile.rs lines 107-136). -/
def decodePlanar (decoder : List Byte → Except String (List Byte)) :
    List (List Byte) → Except String (List Byte)
  | [] => Except.ok []
  | band :: rest =>
    match decoder band with
    | Except.error err => Except.error err
    | Except.ok d =>
      match decodePlanar decoder rest with
      | Except.error err => Except.error err
      | Except.ok r => Except.ok (d ++ r)

/-- Model of `Tile::decode` (src/tile.rs lines 87-163).  The codec registry
lookup is `decoder_registry` (keyed by the compression tag); the codec
itself, the two predictor reversals and the endianness fixup are external to
this claim and passed as functions.  `none` in the result arises only from
the `DataType::Bool` gap in `Array::try_new`. -/
def Tile.decode (tile : Tile)
    (decoder_registry : Nat → Option (List Byte → Except String (List Byte)))
    (unpredict_hdiff : List Byte → Except String (List Byte))
    (unpredict_float : List Byte → Except String (List Byte))
    (fix_endianness : List Byte → List Byte) : Option (Except String Array) :=
  match decoder_registry tile.compression_method with
  | none => some (Except.error "UnsupportedCompression")
  | some decoder =>
    let decodedE :=
      match tile.compressed_bytes with
      | CompressedBytes.Chunky bytes => decoder bytes
      | CompressedBytes.Planar band_bytes => decodePlanar decoder band_bytes
    match decodedE with
    | Except.error err => some (Except.error err)
    | Except.ok decoded_tile =>
      let afterPredictor :=
        match tile.predictor with
        | Predictor.None => Except.ok (fix_endianness decoded_tile)
        | Predictor.Horizontal => unpredict_hdiff decoded_tile
        | Predictor.FloatingPoint => unpredict_float decoded_tile
      match afterPredictor with
      | Except.error err => some (Except.error err)
      | Except.ok decoded =>
        Array.try_new decoded
          (infer_shape tile.planar_configuration tile.width tile.height
            tile.samples_per_pixel)
          tile.data_type

/-! ### Tile addressing (`src/ifd.rs`) -/

/-- The fields of `ImageFileDirectory` (src/ifd.rs lines 63-184) read by the
tile-addressing operations below; the remaining thirty-odd metadata fields
of the source struct are not consumed by them and are omitted. -/
structure ImageFileDirectory where
  image_width : Nat
  image_height : Nat
  tile_width : Option Nat
  tile_height : Option Nat
  tile_offsets : Option (List Nat)
  tile_byte_counts : Option (List Nat)

/-- Model of `ImageFileDirectory::tile_count` (src/ifd.rs lines 790-794):
ceiling division of the image size by the tile size.  The source computes
the ceiling with exact `f64` arithmetic on `u32` inputs, which equals this
integer ceiling division (the pathological `tile_width = 0`, where the
`f64` division yields infinity, is outside every checked property). -/
def ImageFileDirectory.tile_count (ifd : ImageFileDirectory) : Option (Nat × Nat) :=
  match ifd.tile_width, ifd.tile_height with
  | some tw, some th =>
    some ((ifd.image_width + tw - 1) / tw, (ifd.image_height + th - 1) / th)
  | _, _ => none

/-- Model of `ImageFileDirectory::get_tile_byte_range` (src/ifd.rs lines
721-729): `None` when tile offsets, byte counts, or the tile grid are
missing; otherwise index both arrays at `y * tiles_across + x` — Rust `[]`
indexing, which aborts when the index is out of bounds. -/
def ImageFileDirectory.get_tile_byte_range (ifd : ImageFileDirectory)
    (x y : Nat) : Crash (Option (Nat × Nat)) :=
  match ifd.tile_offsets with
  | none => Crash.done none
  | some tile_offsets =>
    match ifd.tile_byte_counts with
    | none => Crash.done none
    | some tile_byte_counts =>
      match ifd.tile_count with
      | none => Crash.done none
      | some tc =>
        let idx := y * tc.1 + x
        match tile_offsets[idx]? with
        | none => Crash.crashed
        | some offset =>
          match tile_byte_counts[idx]? with
          | none => Crash.crashed
          | some byte_count => Crash.done (some (offset, offset + byte_count))

/-- Model of `ImageFileDirectory::get_tile` (src/ifd.rs lines 731-749): a
missing byte range becomes the "Not a tiled TIFF" error; otherwise the tile
bytes are fetched and decoded, which is I/O plus codec work abstracted as
`rest`. -/
def ImageFileDirectory.get_tile (ifd : ImageFileDirectory) (x y : Nat)
    (rest : Nat × Nat → Except String (List Byte)) :
    Crash (Except String (List Byte)) :=
  match ifd.get_tile_byte_range x y with
  | Crash.crashed => Crash.crashed
  | Crash.done none => Crash.done (Except.error "Not a tiled TIFF")
  | Crash.done (some range) => Crash.done (rest range)

/-- An IFD whose tile-offset and tile-byte-count arrays have unequal
lengths (1 and 0): a 16×16 image with one 16×16 tile. -/
def ifdUnequal : ImageFileDirectory :=
  ⟨16, 16, some 16, some 16, some [100], some []⟩

/-- A well-formed 32×32 IFD with a 2×2 grid of 16×16 tiles and matching
arrays of length 4, used to exercise an out-of-bounds tile index. -/
def ifdSquare : ImageFileDirectory :=
  ⟨32, 32, some 16, some 16, some [10, 20, 30, 40], some [5, 6, 7, 8]⟩

/-! ### The GeoKeyDirectory key loop of `from_tags` (`src/ifd.rs`) -/

/-- Modelled from the spec: the closed set of GeoTIFF key ids accepted by
the `GeoKeyTag` enum.  The enum's file (src/geo/geo_key_directory.rs) is not
under src/ — only its caller in src/ifd.rs is — so the set is taken from the
spec's GeoKey model (§3, §4.6) as mirrored one-for-one by the repository's
Python binding fields (python/src/geo.rs): the standard geographic,
projected and vertical CS keys. -/
def geoKeyTagIds : List Nat :=
  [1024, 1025, 1026,
   2048, 2049, 2050, 2051, 2052, 2053, 2054, 2055, 2056, 2057, 2058, 2059,
   2060, 2061,
   3072, 3073, 3074, 3075, 3076, 3077, 3078, 3079, 3080, 3081, 3082, 3083,
   3084, 3085, 3086, 3087, 3088, 3089, 3090, 3091, 3092, 3093, 3094, 3095,
   4096, 4097, 4098, 4099]

/-- Rust `data.chunks(4)`: consecutive chunks of four, the last one possibly
shorter. -/
def chunksOf4 : List Nat → List (List Nat)
  | [] => []
  | [a] => [[a]]
  | [a, b] => [[a, b]]
  | [a, b, c] => [[a, b, c]]
  | a :: b :: c :: d :: rest => [a, b, c, d] :: chunksOf4 rest

/-- One GeoKey entry of the loop body (src/ifd.rs lines 382-433): decide the
value source from `tag_location` (0 = inline short; 34737 = substring of
GeoAsciiParams with a trailing bar stripped; 34736 = GeoDoubleParams scalar
or slice; anything else is silently skipped).  `expect` on missing parameter
arrays and out-of-bounds slicing abort. -/
def geoKeyEntryValue (geo_ascii_params : Option (List Char))
    (geo_double_params : Option (List F64)) (tag_location count value_offset : Nat) :
    Crash (Option TagValue) :=
  if tag_location = 0 then
    Crash.done (some (TagValue.Short value_offset))
  else if tag_location = 34737 then
    match geo_ascii_params with
    | none => Crash.crashed
    | some s =>
      if value_offset + count ≤ s.length then
        let sub := (s.drop value_offset).take count
        let sub := if sub.getLast? = some '|' then sub.dropLast else sub
        Crash.done (some (TagValue.Ascii (String.mk sub)))
      else Crash.crashed
  else if tag_location = 34736 then
    match geo_double_params with
    | none => Crash.crashed
    | some ds =>
      if count = 1 then
        match ds[value_offset]? with
        | none => Crash.crashed
        | some d => Crash.done (some (TagValue.Double d))
      else
        if value_offset + count ≤ ds.length then
          Crash.done (some (TagValue.List (((ds.drop value_offset).take count).map
            TagValue.Double)))
        else Crash.crashed
  else
    Crash.done none

/-- The key loop of the GeoKeyDirectory section of
`ImageFileDirectory::from_tags` (src/ifd.rs lines 382-433): read
`number_of_keys` four-short chunks; `chunks.next().expect(..)` on a missing
chunk aborts, reading a short chunk's entries aborts, and
`GeoKeyTag::try_from_primitive(key_id).expect(..)` aborts on a key id
outside the known set. -/
def geoKeyLoop (geo_ascii_params : Option (List Char))
    (geo_double_params : Option (List F64)) :
    Nat → List (List Nat) → Crash (List (Nat × TagValue))
  | 0, _ => Crash.done []
  | n + 1, chunks =>
    match chunks with
    | [] => Crash.crashed
    | chunk :: rest =>
      match chunk[0]?, chunk[1]?, chunk[2]?, chunk[3]? with
      | some key_id, some tag_location, some count, some value_offset =>
        if key_id ∈ geoKeyTagIds then
          match geoKeyEntryValue geo_ascii_params geo_double_params
              tag_location count value_offset with
          | Crash.crashed => Crash.crashed
          | Crash.done v =>
            match geoKeyLoop geo_ascii_params geo_double_params n rest with
            | Crash.crashed => Crash.crashed
            | Crash.done tags =>
              Crash.done (match v with
                | some val => (key_id, val) :: tags
                | none => tags)
        else Crash.crashed
      | _, _, _, _ => Crash.crashed

/-- The GeoKeyDirectory section of `ImageFileDirectory::from_tags`
(src/ifd.rs lines 366-434), given the data of the `GeoKeyDirectoryTag` and
the already-parsed ascii/double parameter tags: validate the four-short
header (version 1, revision 1 — `assert_eq` aborts otherwise, and reading a
short header aborts), then run the key loop for `number_of_keys` keys.  The
result is the association list handed to `GeoKeyDirectory::from_tags`. -/
def parse_geo_key_directory (data : List Nat) (geo_ascii_params : Option (List Char))
    (geo_double_params : Option (List F64)) : Crash (List (Nat × TagValue)) :=
  match chunksOf4 data with
  | [] => Crash.crashed
  | header :: rest =>
    match header[0]?, header[1]?, header[2]?, header[3]? with
    | some key_directory_version, some key_revision, some _minor, some number_of_keys =>
      if key_directory_version = 1 then
        if key_revision = 1 then
          geoKeyLoop geo_ascii_params geo_double_params number_of_keys rest
        else Crash.crashed
      else Crash.crashed
    | _, _, _, _ => Crash.crashed

/-! ### JPEG table/tile stitching (`src/decoder.rs`) -/

/-- The byte stream `decode_modern_jpeg` (src/decoder.rs lines 360-411)
hands to the JPEG decoder.  With shared tables, two bytes are first read
off the tile body (`read_exact`, an EOF error if the body is shorter), then
the tables minus their last two bytes are chained in front of the rest of
the body; `jpeg_tables.len() - 2` underflows `usize` for a tables blob
shorter than two bytes and the slice aborts.  Without tables the body is
passed through unchanged.  The JPEG decoding itself is external. -/
def decode_modern_jpeg_stream (buf : List Byte) (jpeg_tables : Option (List Byte)) :
    Crash (Except String (List Byte)) :=
  match jpeg_tables with
  | some tables =>
    if buf.length < 2 then Crash.done (Except.error "failed to fill whole buffer")
    else if tables.length < 2 then Crash.crashed
    else Crash.done (Except.ok (tables.take (tables.length - 2) ++ buf.drop 2))
  | none => Crash.done (Except.ok buf)

/-! ### Concrete data for the cache coalescing scenario -/

/-- A 26-byte source file, `b"abcdefghijklmnopqrstuvwxyz"` in the
repository's test, byte values abstracted to 0..25. -/
def exampleFile : List Byte := List.range 26

/-- The cache configuration of the coalescing scenario: initial size 2,
multiplier 3. -/
def exampleCache : ReadaheadMetadataCache := ⟨2, 3⟩

/-- The request sequence of the coalescing scenario. -/
def exampleRequests : List (Nat × Nat) := [(0, 2), (1, 2), (2, 5), (5, 8), (8, 20)]

/-- The coalescing scenario run: the five requests against an initially
empty cache over the 26-byte file. -/
def exampleRun : SequentialBlockCache × List (Nat × Nat) × List (Except Unit (List Byte)) :=
  runRequests exampleCache (fileFetch exampleFile) SequentialBlockCache.new exampleRequests

/-! ### Lemmas about `slice` and `fetch` -/

/-- The chunk walk of `slice` extracts exactly the requested byte range from
the concatenation of the blocks (clipped when the range extends past the
cached bytes). -/
theorem sliceChunks_flatten (bs : List (List Byte)) (s e : Nat) (hse : s ≤ e) :
    (sliceChunks bs s e).flatten = ((bs.flatten).drop s).take (e - s) := by
  induction bs generalizing s e with
  | nil => simp [sliceChunks]
  | cons b bs ih =>
    rw [sliceChunks, List.flatten_cons, List.drop_append_eq_append_drop]
    by_cases hbs : b.length ≤ s
    · rw [if_pos hbs, ih _ _ (by omega), List.drop_eq_nil_of_le hbs,
        List.nil_append]
      congr 1
      omega
    · push_neg at hbs
      rw [if_neg (by omega), List.take_append_eq_append_take, List.length_drop]
      by_cases heb : e ≤ b.length
      · rw [if_pos heb]
        have h1 : min (e - s) (b.length - s) = e - s := by omega
        have h2 : e - s - (b.length - s) = 0 := by omega
        have h3 : s - b.length = 0 := by omega
        simp [h1, h2, h3]
      · push_neg at heb
        rw [if_neg (by omega), List.flatten_cons, ih _ _ (by omega)]
        have h1 : min (e - s) (b.length - s) = b.length - s := by omega
        have h2 : e - s - (b.length - s) = e - b.length := by omega
        have h3 : s - b.length = 0 := by omega
        have h4 : (b.drop s).take (b.length - s) = b.drop s := by
          apply List.take_of_length_le
          rw [List.length_drop]
        have h5 : (b.drop s).take (e - s) = b.drop s := by
          apply List.take_of_length_le
          rw [List.length_drop]
          omega
        simp [h1, h2, h3, h4, h5]

/-- Slicing a cache whose blocks concatenate to `data` returns the bytes
of `data` in the requested range. -/
theorem SequentialBlockCache.slice_eq (c : SequentialBlockCache) (s e : Nat)
    (hse : s ≤ e) :
    c.slice s e = ((c.buffers.flatten).drop s).take (e - s) :=
  sliceChunks_flatten c.buffers s e hse

/-- A cache satisfying the contiguity invariant holds a prefix of the file,
so its length is at most the file length. -/
theorem cacheInv_len_le (file : List Byte) (c : SequentialBlockCache)
    (h : cacheInv file c) : c.len ≤ file.length := by
  obtain ⟨h1, h2⟩ := h
  have := congrArg List.length h2
  rw [List.length_take] at this
  omega

/-- Taking a subrange that ends inside the prefix `file.take L` gives the
same bytes as taking it from the whole file. -/
theorem take_drop_take_eq (file : List Byte) (L s e : Nat) (he : e ≤ L) :
    ((file.take L).drop s).take (e - s) = (file.drop s).take (e - s) := by
  rw [List.drop_take, List.take_take]
  congr 1
  omega

/-- Appending preserves the contiguity invariant when the appended
bytes are exactly the file's bytes starting at the current end of cache. -/
theorem appendBuffer_inv (file : List Byte) (c : SequentialBlockCache)
    (hinv : cacheInv file c) (k : Nat) :
    cacheInv file (c.append_buffer ((file.drop c.len).take k)) := by
  obtain ⟨h1, h2⟩ := hinv
  have hL : c.len ≤ file.length := cacheInv_len_le file c ⟨h1, h2⟩
  constructor
  · show c.len + ((file.drop c.len).take k).length =
      ((c.buffers ++ [(file.drop c.len).take k]).flatten).length
    rw [List.flatten_append, List.length_append, ← h1]
    simp
  · show (c.buffers ++ [(file.drop c.len).take k]).flatten =
      file.take (c.len + ((file.drop c.len).take k).length)
    rw [List.flatten_append, List.take_add, h2]
    simp only [List.flatten_cons, List.flatten_nil, List.append_nil]
    congr 1
    rw [List.length_take, List.length_drop]
    rcases le_total k (file.length - c.len) with hk | hk
    · rw [min_eq_left hk]
    · rw [min_eq_right hk,
        List.take_of_length_le (by rw [List.length_drop]; omega),
        List.take_of_length_le (by rw [List.length_drop])]

/-- On a cache hit (`range.end` within the cached length) `fetch` answers
from the cache and issues no inner fetch. -/
theorem ReadaheadMetadataCache.fetch_hit {ε : Type} (self : ReadaheadMetadataCache)
    (inner : Nat → Nat → Except ε (List Byte)) (cache : SequentialBlockCache)
    (s e : Nat) (hc : e ≤ cache.len) :
    self.fetch inner cache s e = (Except.ok (cache.slice s e), cache, []) := by
  simp [ReadaheadMetadataCache.fetch, SequentialBlockCache.contains, hc]

/-- On a cache miss, `fetch` issues exactly one inner fetch for the range
`[len, len + max (next_fetch_size len) (e - len))`, appends the returned
bytes, and slices the requested range out of the grown cache. -/
theorem ReadaheadMetadataCache.fetch_miss {ε : Type} (self : ReadaheadMetadataCache)
    (inner : Nat → Nat → Except ε (List Byte)) (cache : SequentialBlockCache)
    (s e : Nat) (hc : cache.len < e) (bytes : List Byte)
    (hin : inner cache.len
      (cache.len + max (self.next_fetch_size cache.len) (e - cache.len)) =
      Except.ok bytes) :
    self.fetch inner cache s e =
      (Except.ok ((cache.append_buffer bytes).slice s e), cache.append_buffer bytes,
       [(cache.len, cache.len + max (self.next_fetch_size cache.len) (e - cache.len))]) := by
  simp only [ReadaheadMetadataCache.fetch, SequentialBlockCache.contains]
  rw [if_neg (by simp; omega)]
  simp only [hin]

/-- C1: for every byte range `r ⊆ [0, file_size)`, assuming the inner
`MetadataFetch` answers with exactly the requested bytes of the file,
`ReadaheadMetadataCache::fetch(r)` returns exactly the file's bytes at
positions `[r.start, r.end)` — both when `r` is already covered by the
cached buffers (sliced, possibly across several contiguous blocks) and when
a new underlying fetch is triggered first — and the cache's contiguity
invariant is preserved. -/
theorem C1_readahead_fetch_returns_exact_bytes
    (rmc : ReadaheadMetadataCache) (file : List Byte) (c : SequentialBlockCache)
    (s e : Nat) (hinv : cacheInv file c) (hse : s ≤ e) (he : e ≤ file.length) :
    (rmc.fetch (fileFetch file) c s e).1 = Except.ok ((file.drop s).take (e - s)) ∧
    cacheInv file (rmc.fetch (fileFetch file) c s e).2.1 := by
  have hL : c.len ≤ file.length := cacheInv_len_le file c hinv
  obtain ⟨h1, h2⟩ := hinv
  by_cases hc : e ≤ c.len
  · rw [ReadaheadMetadataCache.fetch_hit _ _ _ _ _ hc]
    refine ⟨?_, h1, h2⟩
    dsimp only
    rw [SequentialBlockCache.slice_eq _ _ _ hse, h2,
      take_drop_take_eq file c.len s e hc]
  · push_neg at hc
    set fs := max (rmc.next_fetch_size c.len) (e - c.len) with hfs
    have hfse : e - c.len ≤ fs := le_max_right _ _
    have hin : fileFetch file c.len (c.len + fs) =
        Except.ok ((file.drop c.len).take fs) := by
      simp [fileFetch]
    rw [ReadaheadMetadataCache.fetch_miss _ _ _ _ _ hc _ hin]
    have hinv2 := appendBuffer_inv file c ⟨h1, h2⟩ fs
    have hlen2 : (c.append_buffer ((file.drop c.len).take fs)).len
        = c.len + min fs (file.length - c.len) := by
      simp [SequentialBlockCache.append_buffer]
    have he2 : e ≤ (c.append_buffer ((file.drop c.len).take fs)).len := by
      rw [hlen2]; omega
    refine ⟨?_, hinv2⟩
    dsimp only
    rw [SequentialBlockCache.slice_eq _ _ _ hse, hinv2.2,
      take_drop_take_eq file _ s e he2]

/-- Witness for C1 at a concrete input: the empty cache over the file
`[7, 8, 9]` and the range `1..3`. -/
theorem C1_witness :
    cacheInv [7, 8, 9] SequentialBlockCache.new ∧ 1 ≤ 3 ∧ 3 ≤ [7, 8, 9].length ∧
    (ReadaheadMetadataCache.new.fetch (fileFetch [7, 8, 9])
      SequentialBlockCache.new 1 3).1 = Except.ok (([7, 8, 9].drop 1).take (3 - 1)) :=
  ⟨⟨rfl, rfl⟩, by decide, by decide,
    (C1_readahead_fetch_returns_exact_bytes ReadaheadMetadataCache.new [7, 8, 9]
      SequentialBlockCache.new 1 3 ⟨rfl, rfl⟩ (by decide) (by decide)).1⟩

/-- C9: when the requested range extends past the end of the file, the inner
fetch comes back short, and `fetch` still returns `Ok` with a buffer shorter
than the requested range — `file_len - start` bytes instead of
`end - start` — while the cache's length counter is updated to the actual
appended length, preserving the contiguity invariant. -/
theorem C9_short_inner_read_returns_ok
    (rmc : ReadaheadMetadataCache) (file : List Byte) (c : SequentialBlockCache)
    (s e : Nat) (hinv : cacheInv file c) (hs : s ≤ file.length)
    (he : file.length < e) :
    (rmc.fetch (fileFetch file) c s e).1 = Except.ok (file.drop s) ∧
    (file.drop s).length = file.length - s ∧
    file.length - s < e - s ∧
    (rmc.fetch (fileFetch file) c s e).2.1.len = file.length ∧
    cacheInv file (rmc.fetch (fileFetch file) c s e).2.1 := by
  have hL : c.len ≤ file.length := cacheInv_len_le file c hinv
  obtain ⟨h1, h2⟩ := hinv
  have hc : c.len < e := by omega
  set fs := max (rmc.next_fetch_size c.len) (e - c.len) with hfs
  have hfse : e - c.len ≤ fs := le_max_right _ _
  have hin : fileFetch file c.len (c.len + fs) =
      Except.ok ((file.drop c.len).take fs) := by
    simp [fileFetch]
  rw [ReadaheadMetadataCache.fetch_miss _ _ _ _ _ hc _ hin]
  have hinv2 := appendBuffer_inv file c ⟨h1, h2⟩ fs
  have hlen2 : (c.append_buffer ((file.drop c.len).take fs)).len = file.length := by
    simp only [SequentialBlockCache.append_buffer, List.length_take, List.length_drop]
    omega
  dsimp only
  refine ⟨?_, by simp, by omega, hlen2, hinv2⟩
  rw [SequentialBlockCache.slice_eq _ _ _ (by omega), hinv2.2, hlen2,
    List.take_length]
  congr 1
  apply List.take_of_length_le
  rw [List.length_drop]
  omega

/-- Witness for C9 at a concrete input: the empty cache over the two-byte
file `[1, 2]` and the range `1..5`, which straddles the end of file. -/
theorem C9_witness :
    cacheInv [1, 2] SequentialBlockCache.new ∧ 1 ≤ [1, 2].length ∧
    [1, 2].length < 5 ∧
    (ReadaheadMetadataCache.new.fetch (fileFetch [1, 2])
      SequentialBlockCache.new 1 5).1 = Except.ok ([1, 2].drop 1) :=
  ⟨⟨rfl, rfl⟩, by decide, by decide,
    (C9_short_inner_read_returns_ok ReadaheadMetadataCache.new [1, 2]
      SequentialBlockCache.new 1 5 ⟨rfl, rfl⟩ (by decide) (by decide)).1⟩

/-- Rounding half away from zero fixes every natural number. -/
theorem roundHalfAway_natCast (n : ℕ) : roundHalfAway (n : ℚ) = n := by
  unfold roundHalfAway
  rw [if_pos (by positivity), add_comm, Int.floor_add_nat]
  have h0 : ⌊(1 / 2 : ℚ)⌋ = 0 := by
    rw [Int.floor_eq_zero_iff]
    constructor <;> norm_num
  rw [h0, zero_add]

/-- C2: on a miss (`r.end` beyond the cached length `L`) `fetch` issues
exactly one underlying fetch, of the contiguous range `[L, L + size)` with
`size = max (next_step L) (r.end - L)`; on a hit it issues none;
`next_step 0 = initial` and `next_step L = round (L * multiplier)` for
`L ≠ 0`; and with `initial = 2`, `multiplier = 3`, the request sequence
`[0..2, 1..2, 2..5, 5..8, 8..20]` over a 26-byte source triggers exactly 3
underlying fetches whose fetched byte buffers have sizes 2, 6 and 18 (the
third fetch requests the range `[8, 32)` and receives the remaining 18
bytes of the file). -/
theorem C2_exponential_growth_policy :
    (∀ {ε : Type} (rmc : ReadaheadMetadataCache)
      (inner : Nat → Nat → Except ε (List Byte)) (c : SequentialBlockCache)
      (s e : Nat), c.len < e →
      (rmc.fetch inner c s e).2.2 =
        [(c.len, c.len + max (rmc.next_fetch_size c.len) (e - c.len))]) ∧
    (∀ {ε : Type} (rmc : ReadaheadMetadataCache)
      (inner : Nat → Nat → Except ε (List Byte)) (c : SequentialBlockCache)
      (s e : Nat), e ≤ c.len → (rmc.fetch inner c s e).2.2 = []) ∧
    (∀ rmc : ReadaheadMetadataCache, rmc.next_fetch_size 0 = rmc.initial) ∧
    (∀ (rmc : ReadaheadMetadataCache) (L : Nat), L ≠ 0 →
      rmc.next_fetch_size L = (roundHalfAway ((L : ℚ) * rmc.multiplier)).toNat) ∧
    exampleRun.2.1 = [(0, 2), (2, 8), (8, 32)] ∧
    exampleRun.1.buffers.map List.length = [2, 6, 18] := by
  have n0 : exampleCache.next_fetch_size 0 = 2 := rfl
  have n2 : exampleCache.next_fetch_size 2 = 6 := by
    unfold ReadaheadMetadataCache.next_fetch_size
    rw [if_neg (by decide)]
    have h26 : ((2 : ℕ) : ℚ) * exampleCache.multiplier = ((6 : ℕ) : ℚ) := by
      show ((2 : ℕ) : ℚ) * 3 = ((6 : ℕ) : ℚ)
      push_cast
      norm_num
    rw [h26, roundHalfAway_natCast]
    rfl
  have n8 : exampleCache.next_fetch_size 8 = 24 := by
    unfold ReadaheadMetadataCache.next_fetch_size
    rw [if_neg (by decide)]
    have h824 : ((8 : ℕ) : ℚ) * exampleCache.multiplier = ((24 : ℕ) : ℚ) := by
      show ((8 : ℕ) : ℚ) * 3 = ((24 : ℕ) : ℚ)
      push_cast
      norm_num
    rw [h824, roundHalfAway_natCast]
    rfl
  have f1 : exampleCache.fetch (fileFetch exampleFile) SequentialBlockCache.new 0 2
      = (Except.ok [0, 1], ⟨[[0, 1]], 2⟩, [(0, 2)]) := by
    simp only [ReadaheadMetadataCache.fetch, SequentialBlockCache.new, n0]
    rfl
  have f2 : exampleCache.fetch (fileFetch exampleFile) ⟨[[0, 1]], 2⟩ 1 2
      = (Except.ok [1], ⟨[[0, 1]], 2⟩, []) := by
    rw [ReadaheadMetadataCache.fetch_hit _ _ _ _ _ (by decide)]
    rfl
  have f3 : exampleCache.fetch (fileFetch exampleFile) ⟨[[0, 1]], 2⟩ 2 5
      = (Except.ok [2, 3, 4], ⟨[[0, 1], [2, 3, 4, 5, 6, 7]], 8⟩, [(2, 8)]) := by
    simp only [ReadaheadMetadataCache.fetch, n2]
    rfl
  have f4 : exampleCache.fetch (fileFetch exampleFile)
      ⟨[[0, 1], [2, 3, 4, 5, 6, 7]], 8⟩ 5 8
      = (Except.ok [5, 6, 7], ⟨[[0, 1], [2, 3, 4, 5, 6, 7]], 8⟩, []) := by
    rw [ReadaheadMetadataCache.fetch_hit _ _ _ _ _ (by decide)]
    rfl
  have f5 : exampleCache.fetch (fileFetch exampleFile)
      ⟨[[0, 1], [2, 3, 4, 5, 6, 7]], 8⟩ 8 20
      = (Except.ok [8, 9, 10, 11, 12, 13, 14, 15, 16, 17, 18, 19],
         ⟨[[0, 1], [2, 3, 4, 5, 6, 7],
           [8, 9, 10, 11, 12, 13, 14, 15, 16, 17, 18, 19, 20, 21, 22, 23, 24, 25]],
          26⟩, [(8, 32)]) := by
    simp only [ReadaheadMetadataCache.fetch, n8]
    rfl
  have hrun : exampleRun = (⟨[[0, 1], [2, 3, 4, 5, 6, 7],
      [8, 9, 10, 11, 12, 13, 14, 15, 16, 17, 18, 19, 20, 21, 22, 23, 24, 25]], 26⟩,
      [(0, 2), (2, 8), (8, 32)],
      [Except.ok [0, 1], Except.ok [1], Except.ok [2, 3, 4], Except.ok [5, 6, 7],
       Except.ok [8, 9, 10, 11, 12, 13, 14, 15, 16, 17, 18, 19]]) := by
    unfold exampleRun exampleRequests
    simp only [runRequests, f1, f2, f3, f4, f5]
    rfl
  refine ⟨?_, ?_, ?_, ?_, by rw [hrun], by rw [hrun]; rfl⟩
  · intro ε rmc inner c s e hce
    simp only [ReadaheadMetadataCache.fetch, SequentialBlockCache.contains]
    rw [if_neg (by simp; omega)]
    cases h : inner c.len (c.len + max (rmc.next_fetch_size c.len) (e - c.len)) with
    | error err => simp [h]
    | ok bytes => simp [h]
  · intro ε rmc inner c s e hce
    rw [ReadaheadMetadataCache.fetch_hit _ _ _ _ _ hce]
  · intro rmc
    rfl
  · intro rmc L hL
    simp [ReadaheadMetadataCache.next_fetch_size, hL]

/-- Witness for C2 at a concrete input: the empty cache and the range
`0..1`, a miss. -/
theorem C2_witness :
    SequentialBlockCache.new.len < 1 ∧
    (ReadaheadMetadataCache.new.fetch (fileFetch []) SequentialBlockCache.new 0 1).2.2
      = [(SequentialBlockCache.new.len, SequentialBlockCache.new.len +
          max (ReadaheadMetadataCache.new.next_fetch_size SequentialBlockCache.new.len)
            (1 - SequentialBlockCache.new.len))] :=
  ⟨by decide, C2_exponential_growth_policy.1 ReadaheadMetadataCache.new (fileFetch [])
    SequentialBlockCache.new 0 1 (by decide)⟩

/-- C3 (amended): the IFD-chain walk of `read_all_ifds` stops — returning
the directories read so far — exactly when an IFD's next-IFD offset is 0
(or when there was no first IFD); but the code has no IFD count limit: when
every IFD in the chain names a nonzero next offset (a malformed cycle, for
instance), the walk is still running after any number of steps, i.e. the
number of IFDs read is unbounded and the loop never terminates. -/
theorem C3_ifd_chain_walk :
    (∀ {Ifd ε : Type} (parse : Nat → Except ε (Ifd × Nat)) (n : Nat),
      read_all_ifds_fuel parse (n + 1) none = Except.ok (some [])) ∧
    (∀ {Ifd ε : Type} (parse : Nat → Except ε (Ifd × Nat)) (p : Nat) (i : Ifd),
      parse p = Except.ok (i, 0) → ∀ n : Nat,
      read_all_ifds_fuel parse (n + 2) (some p) = Except.ok (some [i])) ∧
    (∀ {Ifd ε : Type} (parse : Nat → Except ε (Ifd × Nat)) (p : Nat) (i : Ifd)
      (q : Nat), q ≠ 0 → parse p = Except.ok (i, q) → ∀ n : Nat,
      read_all_ifds_fuel parse (n + 1) (some p) =
        (read_all_ifds_fuel parse n (some q)).map (Option.map (i :: ·))) ∧
    (∀ {Ifd ε : Type} (parse : Nat → Except ε (Ifd × Nat)),
      (∀ q, ∃ i r, parse q = Except.ok (i, r) ∧ r ≠ 0) →
      ∀ p n : Nat, read_all_ifds_fuel parse n (some p) = Except.ok none) := by
  refine ⟨fun parse n => rfl, ?_, ?_, ?_⟩
  · intro Ifd ε parse p i hp n
    simp only [read_all_ifds_fuel, read_next_ifd, ifd_reader_open, hp]
    rfl
  · intro Ifd ε parse p i q hq hp n
    simp only [read_all_ifds_fuel, read_next_ifd, ifd_reader_open, hp, if_neg hq]
    cases h : read_all_ifds_fuel parse n (some q) with
    | error err => simp [h, Except.map]
    | ok o =>
      cases o with
      | none => simp [h, Except.map]
      | some rest => simp [h, Except.map]
  · intro Ifd ε parse hchain p n
    induction n generalizing p with
    | zero => rfl
    | succ n ih =>
      obtain ⟨i, r, hpr, hr⟩ := hchain p
      simp only [read_all_ifds_fuel, read_next_ifd, ifd_reader_open, hpr, if_neg hr,
        ih r]

/-- Witness for C3 at a concrete input: an IFD at offset 5 whose next-IFD
offset word is 0 ends the walk after that one IFD. -/
theorem C3_witness :
    stopParse 5 = Except.ok ((), 0) ∧
    read_all_ifds_fuel stopParse 3 (some 5) = Except.ok (some [()]) :=
  ⟨rfl, C3_ifd_chain_walk.2.1 stopParse 5 () rfl 1⟩

/-- C3 counterexample: on a malformed file whose IFD chain is a cycle
(every IFD points at offset 100), `read_all_ifds` is still running after
100 IFD reads — far past the claimed 16-IFD default limit, which does not
exist in the code — so the number of IFDs read is not bounded by 16 and the
walk never returns. -/
theorem C3_counterexample :
    read_all_ifds_fuel cyclicParse 100 (some 100) = Except.ok none := rfl

/-- Asserts that a successful conversion by `Array::try_new` yields an
array whose typed element count equals the shape product and whose shape is
the requested one. -/
theorem array_try_new_ok_len (data : List Byte) (shape : Nat × Nat × Nat)
    (dt : Option DataType) (arr : Array)
    (h : Array.try_new data shape dt = some (Except.ok arr)) :
    arr.data.len = shape.1 * shape.2.1 * shape.2.2 ∧ arr.shape = shape := by
  simp only [Array.try_new] at h
  split at h
  · simp at h
  · split at h
    · simp at h
    · rename_i hlen
      simp only [Option.some.injEq, Except.ok.injEq] at h
      subst h
      exact ⟨not_ne_iff.mp hlen, rfl⟩

/-- C4 (amended): every scalar integer conversion of a `TagValue` either
succeeds with the numerically equal value or fails with a value-conversion
error; and for a singleton list, `List([x]).into_T()` does not unwrap to
`x.into_T()` — the scalar converters have no `List` arm at all, so it always
fails with a value-conversion error. -/
theorem C4_tagvalue_integer_conversions :
    (∀ v : TagValue, (∃ n : Nat, v.into_u8 = Except.ok n ∧ v.numValue = some (n : Int)) ∨
      ∃ err, v.into_u8 = Except.error err) ∧
    (∀ v : TagValue, (∃ n : Int, v.into_i8 = Except.ok n ∧ v.numValue = some n) ∨
      ∃ err, v.into_i8 = Except.error err) ∧
    (∀ v : TagValue, (∃ n : Nat, v.into_u16 = Except.ok n ∧ v.numValue = some (n : Int)) ∨
      ∃ err, v.into_u16 = Except.error err) ∧
    (∀ v : TagValue, (∃ n : Int, v.into_i16 = Except.ok n ∧ v.numValue = some n) ∨
      ∃ err, v.into_i16 = Except.error err) ∧
    (∀ v : TagValue, (∃ n : Nat, v.into_u32 = Except.ok n ∧ v.numValue = some (n : Int)) ∨
      ∃ err, v.into_u32 = Except.error err) ∧
    (∀ v : TagValue, (∃ n : Int, v.into_i32 = Except.ok n ∧ v.numValue = some n) ∨
      ∃ err, v.into_i32 = Except.error err) ∧
    (∀ v : TagValue, (∃ n : Nat, v.into_u64 = Except.ok n ∧ v.numValue = some (n : Int)) ∨
      ∃ err, v.into_u64 = Except.error err) ∧
    (∀ v : TagValue, (∃ n : Int, v.into_i64 = Except.ok n ∧ v.numValue = some n) ∨
      ∃ err, v.into_i64 = Except.error err) ∧
    (∀ x : TagValue, ∃ err, (TagValue.List [x]).into_u8 = Except.error err) ∧
    (∀ x : TagValue, ∃ err, (TagValue.List [x]).into_i8 = Except.error err) ∧
    (∀ x : TagValue, ∃ err, (TagValue.List [x]).into_u16 = Except.error err) ∧
    (∀ x : TagValue, ∃ err, (TagValue.List [x]).into_i16 = Except.error err) ∧
    (∀ x : TagValue, ∃ err, (TagValue.List [x]).into_u32 = Except.error err) ∧
    (∀ x : TagValue, ∃ err, (TagValue.List [x]).into_i32 = Except.error err) ∧
    (∀ x : TagValue, ∃ err, (TagValue.List [x]).into_u64 = Except.error err) ∧
    (∀ x : TagValue, ∃ err, (TagValue.List [x]).into_i64 = Except.error err) := by
  refine ⟨?_, ?_, ?_, ?_, ?_, ?_, ?_, ?_,
    fun x => ⟨_, rfl⟩, fun x => ⟨_, rfl⟩, fun x => ⟨_, rfl⟩, fun x => ⟨_, rfl⟩,
    fun x => ⟨_, rfl⟩, fun x => ⟨_, rfl⟩, fun x => ⟨_, rfl⟩, fun x => ⟨_, rfl⟩⟩ <;>
  · intro v
    cases v <;>
      first
        | exact Or.inl ⟨_, rfl, rfl⟩
        | exact Or.inr ⟨_, rfl⟩
        | (dsimp only [TagValue.into_u8, TagValue.into_i8, TagValue.into_u16,
            TagValue.into_i16, TagValue.into_u32, TagValue.into_i32,
            TagValue.into_u64, TagValue.into_i64, TagValue.numValue]
           split_ifs <;>
             first
               | exact Or.inl ⟨_, rfl, rfl⟩
               | exact Or.inr ⟨_, rfl⟩)

/-- C4 counterexample: `into_u16` on the singleton list `List([Short 5])`
does not equal `into_u16` on `Short 5` — the former is a value-conversion
error, the latter succeeds with 5. -/
theorem C4_counterexample :
    TagValue.into_u16 (TagValue.List [TagValue.Short 5])
      ≠ TagValue.into_u16 (TagValue.Short 5) := by
  simp [TagValue.into_u16]

/-- C5 (amended): when tile offsets, tile byte counts, or the tile grid
(tile width/height) are missing, `get_tile` returns the "Not a tiled TIFF"
error result; but for unequal offset/byte-count array lengths or an
out-of-bounds tile index the code aborts on the array indexing instead of
returning a `Corrupt` or `OutOfBounds` error — no such error paths exist. -/
theorem C5_tile_error_paths :
    (∀ (ifd : ImageFileDirectory) (x y : Nat)
      (rest : Nat × Nat → Except String (List Byte)), ifd.tile_offsets = none →
      ifd.get_tile x y rest = Crash.done (Except.error "Not a tiled TIFF")) ∧
    (∀ (ifd : ImageFileDirectory) (x y : Nat)
      (rest : Nat × Nat → Except String (List Byte)), ifd.tile_byte_counts = none →
      ifd.get_tile x y rest = Crash.done (Except.error "Not a tiled TIFF")) ∧
    (∀ (ifd : ImageFileDirectory) (x y : Nat)
      (rest : Nat × Nat → Except String (List Byte)), ifd.tile_width = none →
      ifd.get_tile x y rest = Crash.done (Except.error "Not a tiled TIFF")) ∧
    (∀ (ifd : ImageFileDirectory) (x y : Nat)
      (rest : Nat × Nat → Except String (List Byte)), ifd.tile_height = none →
      ifd.get_tile x y rest = Crash.done (Except.error "Not a tiled TIFF")) ∧
    ifdSquare.get_tile 5 0 (fun _ => Except.ok []) = Crash.crashed ∧
    ifdUnequal.get_tile 0 0 (fun _ => Except.ok []) = Crash.crashed := by
  refine ⟨?_, ?_, ?_, ?_, rfl, rfl⟩
  · intro ifd x y rest h
    simp [ImageFileDirectory.get_tile, ImageFileDirectory.get_tile_byte_range, h]
  · intro ifd x y rest h
    cases ho : ifd.tile_offsets <;>
      simp [ImageFileDirectory.get_tile, ImageFileDirectory.get_tile_byte_range, ho, h]
  · intro ifd x y rest h
    cases ho : ifd.tile_offsets <;> cases hc : ifd.tile_byte_counts <;>
      simp [ImageFileDirectory.get_tile, ImageFileDirectory.get_tile_byte_range,
        ImageFileDirectory.tile_count, ho, hc, h]
  · intro ifd x y rest h
    cases ho : ifd.tile_offsets <;> cases hc : ifd.tile_byte_counts <;>
      cases hw : ifd.tile_width <;>
      simp [ImageFileDirectory.get_tile, ImageFileDirectory.get_tile_byte_range,
        ImageFileDirectory.tile_count, ho, hc, hw, h]

/-- Witness for C5 at a concrete input: an IFD with no tile offsets. -/
theorem C5_witness :
    (⟨4, 4, some 2, some 2, none, none⟩ : ImageFileDirectory).tile_offsets = none ∧
    (⟨4, 4, some 2, some 2, none, none⟩ : ImageFileDirectory).get_tile 0 0
      (fun _ => Except.ok []) = Crash.done (Except.error "Not a tiled TIFF") :=
  ⟨rfl, C5_tile_error_paths.1 ⟨4, 4, some 2, some 2, none, none⟩ 0 0
    (fun _ => Except.ok []) rfl⟩

/-- C5 counterexample: an IFD whose tile-offset and tile-byte-count arrays
have unequal lengths (1 and 0) makes `get_tile(0, 0)` abort on the
out-of-bounds byte-count indexing instead of returning a `Corrupt` error
result. -/
theorem C5_counterexample :
    ifdUnequal.get_tile 0 0 (fun _ => Except.ok []) = Crash.crashed := rfl

/-- C6: `DataType::from_tags` classifies a 1-bit unsigned sample as `Bool`,
but `TypedArray::new` has no arm for `DataType::Bool` because the
`TypedArray` enum of src/array.rs has only the ten numeric variants and no
`Bool` variant — so no `(h, w, 1)` `TypedArray::Bool` can ever be produced,
even though the repository's own test
(src/test/geotiff_test_data/real_data/vantor.rs) matches on
`TypedArray::Bool` for the decoded 1-bit transparency mask. -/
theorem C6_typedarray_has_no_bool_variant :
    DataType.from_tags [SampleFormat.Uint] [1] = some DataType.Bool ∧
    ∀ data : List Byte, TypedArray.new data (some DataType.Bool) = none :=
  ⟨rfl, fun _ => rfl⟩

/-- C7: a GeoKeyDirectory with a valid header whose single key has the
unknown key id 9999 makes the key loop abort (the `expect` on
`GeoKeyTag::try_from_primitive`), whereas the same directory with the known
key id 1024 parses fine — so parsing does fail on unknown key ids instead of
preserving them, contradicting the repository's own
`test_parse_file_with_unknown_geokey` test. -/
theorem C7_unknown_geokey_id_aborts :
    parse_geo_key_directory [1, 1, 0, 1, 9999, 0, 1, 0] none none = Crash.crashed ∧
    parse_geo_key_directory [1, 1, 0, 1, 1024, 0, 1, 7] none none
      = Crash.done [(1024, TagValue.Short 7)] :=
  ⟨rfl, rfl⟩

/-- C8: with a shared `JPEGTables` blob (which ends in the two-byte EOI
marker) and a tile body (which starts with the two-byte SOI marker), the
byte stream handed to the JPEG decoder is exactly the tables minus their
last two bytes followed by the body minus its first two bytes; without a
tables blob the body is passed through unmodified. -/
theorem C8_jpeg_table_stitching :
    (∀ buf tables : List Byte, 2 ≤ tables.length → 2 ≤ buf.length →
      decode_modern_jpeg_stream buf (some tables)
        = Crash.done (Except.ok (tables.take (tables.length - 2) ++ buf.drop 2))) ∧
    (∀ buf : List Byte, decode_modern_jpeg_stream buf none
      = Crash.done (Except.ok buf)) := by
  constructor
  · intro buf tables ht hb
    simp only [decode_modern_jpeg_stream]
    rw [if_neg (by omega), if_neg (by omega)]
  · intro buf
    rfl

/-- Witness for C8 at a concrete input: three bytes of tables and a
four-byte tile body. -/
theorem C8_witness :
    2 ≤ ([9, 9, 9] : List Byte).length ∧ 2 ≤ ([7, 7, 7, 7] : List Byte).length ∧
    decode_modern_jpeg_stream [7, 7, 7, 7] (some [9, 9, 9])
      = Crash.done (Except.ok (([9, 9, 9] : List Byte).take (([9, 9, 9] : List Byte).length - 2)
          ++ ([7, 7, 7, 7] : List Byte).drop 2)) :=
  ⟨by decide, by decide,
    C8_jpeg_table_stitching.1 [7, 7, 7, 7] [9, 9, 9] (by decide) (by decide)⟩

/-- C10: every `Array` constructed through `Array::try_new` — and hence
every `Array` returned by `Tile::decode`, whatever codec, predictor and
endianness-fixup implementations are plugged in — has a typed element count
equal to `shape[0] * shape[1] * shape[2]`; and whenever the typed data
length disagrees with the shape for the given data type, `try_new` returns
an error instead of an `Array`. -/
theorem C10_array_shape_invariant :
    (∀ (data : List Byte) (shape : Nat × Nat × Nat) (dt : Option DataType)
      (arr : Array), Array.try_new data shape dt = some (Except.ok arr) →
      arr.data.len = shape.1 * shape.2.1 * shape.2.2 ∧ arr.shape = shape) ∧
    (∀ (data : List Byte) (shape : Nat × Nat × Nat) (dt : Option DataType)
      (td : TypedArray), TypedArray.new data dt = some td →
      td.len ≠ shape.1 * shape.2.1 * shape.2.2 →
      Array.try_new data shape dt = some (Except.error
        "Internal error: incorrect shape or data length passed to Array::try_new")) ∧
    (∀ (tile : Tile) (reg : Nat → Option (List Byte → Except String (List Byte)))
      (uh uf : List Byte → Except String (List Byte)) (fe : List Byte → List Byte)
      (arr : Array), tile.decode reg uh uf fe = some (Except.ok arr) →
      arr.data.len = arr.shape.1 * arr.shape.2.1 * arr.shape.2.2) := by
  refine ⟨array_try_new_ok_len, ?_, ?_⟩
  · intro data shape dt td hn hne
    simp only [Array.try_new, hn]
    rw [if_pos hne]
  · intro tile reg uh uf fe arr h
    simp only [Tile.decode] at h
    split at h
    · simp at h
    · split at h
      · simp at h
      · split at h
        · simp at h
        · obtain ⟨h1, h2⟩ := array_try_new_ok_len _ _ _ _ h
          rw [h2]
          exact h1

/-- Witness for C10 at a concrete input: six bytes shaped `(1, 2, 3)` as
unsigned 8-bit data. -/
theorem C10_witness :
    Array.try_new [1, 2, 3, 4, 5, 6] (1, 2, 3) (some DataType.UInt8)
      = some (Except.ok ⟨TypedArray.UInt8 [1, 2, 3, 4, 5, 6], (1, 2, 3),
          some DataType.UInt8⟩) ∧
    (⟨TypedArray.UInt8 [1, 2, 3, 4, 5, 6], (1, 2, 3),
      some DataType.UInt8⟩ : Array).data.len = 1 * 2 * 3 :=
  ⟨rfl, (C10_array_shape_invariant.1 [1, 2, 3, 4, 5, 6] (1, 2, 3)
    (some DataType.UInt8) _ rfl).1⟩

end AsyncTiff
